import Mathlib

/-!
Shallow embedding of the `jsave` crate: a synchronization wrapper that
couples an in-memory value to a JSON file on disk.

The repository has four source files:
  * `lib.rs`     — the `Jsave<T>` wrapper (an `RwLock` plus a path) whose
                   write guard re-serializes the value on drop, together
                   with the `IntoPathBuf` location-normalization trait;
  * `mutex.rs`   — `Mutex<T>` (wrapping `parking_lot::Mutex`);
  * `rwlock.rs`  — `RwLock<T>` (wrapping `parking_lot::RwLock`);
  * `remutex.rs` — `ReentrantMutex<T>` (wrapping `parking_lot::ReentrantMutex`).

The module files call `crate::save_data_to_path`, which is defined in a
crate-root file that is not among the given sources; it is modelled from
the spec below.  The filesystem and the serde_json codec are external
collaborators; they are embedded as explicit state (`FS`) and as a codec
interface (`Codec`).  Machine-level details (thread parking, fairness
timing) are abstracted: bounded waits take their outcome as an oracle
argument, and each operation is a pure state transformer on the wrapper
state and the filesystem.
-/

/-- Error taxonomy of the crate (`enum Error { Io(..), Serde(..) }` in
`lib.rs`; the module files use `std::io::Error`, into which serde_json
errors convert).  Only the kind of failure matters to the model. -/
inductive JError where
  | io
  | serde
deriving DecidableEq, Repr

/-- A backing-store location (Rust `PathBuf`), modelled as a string. -/
abbrev JPath := String

/-- The filesystem as seen by the crate: per-path contents, plus which
absent paths could be created by an open call with a create flag. -/
structure FS where
  contents : JPath → Option String
  creatable : JPath → Bool

/-- Truncate-and-overwrite the contents at `p`. -/
def FS.write (fs : FS) (p : JPath) (s : String) : FS :=
  ⟨fun q => if q = p then some s else fs.contents q, fs.creatable⟩

/-- `OpenOptions::new().write(true).truncate(true).open(p)`: with no
create flag this succeeds only on an existing file. -/
def FS.openWriteTruncate (fs : FS) (p : JPath) : Bool :=
  (fs.contents p).isSome

@[simp]
theorem FS.write_contents_same (fs : FS) (p : JPath) (s : String) :
    (fs.write p s).contents p = some s := by
  simp [FS.write]

@[simp]
theorem FS.write_contents (fs : FS) (p q : JPath) (s : String) :
    (fs.write p s).contents q = if q = p then some s else fs.contents q := rfl

@[simp]
theorem FS.write_creatable (fs : FS) (p : JPath) (s : String) :
    (fs.write p s).creatable = fs.creatable := rfl

/-- The serde_json codec for a protected type `T`, as the interface the
core consumes: `encode` may fail (SerializationFailure), `decode` may
fail (deserialization failure). -/
structure Codec (T : Type) where
  encode : T → Option String
  decode : String → Option T

/-- A concrete codec for `Bool`, used to instantiate the development at
concrete inputs (a supported value shape: it round-trips). -/
def boolCodec : Codec Bool :=
  ⟨fun b => some (if b then "true" else "false"),
   fun s => if s = "true" then some true else if s = "false" then some false else none⟩

/-- The heterogeneous location inputs accepted by the crate
(`IntoPathBuf` impls in `lib.rs`; `Into<PathBuf>` in the modules):
owned/borrowed/copy-on-write paths, text, and platform-native text. -/
inductive LocationInput where
  | ownedPath (s : String)
  | borrowedPath (s : String)
  | cowPath (s : String)
  | ownedText (s : String)
  | borrowedText (s : String)
  | cowText (s : String)
  | osString (s : String)
  | osStr (s : String)
  | cowOsStr (s : String)

/-- Location normalization: every `IntoPathBuf` impl is a plain
conversion into one canonical owned `PathBuf` carrying the same path. -/
def LocationInput.intoPathBuf : LocationInput → JPath
  | .ownedPath s | .borrowedPath s | .cowPath s
  | .ownedText s | .borrowedText s | .cowText s
  | .osString s | .osStr s | .cowOsStr s => s

/-- Modelled from the spec: `crate::save_data_to_path` is defined in the
crate root, a file not among the given sources (only its callers in
mutex.rs, rwlock.rs and remutex.rs are).  Per sections 4.4 and 6 of the
spec, it encodes the value to bytes and writes them to the location,
fully truncating and overwriting; the destination need only be creatable
or openable in truncate-write mode, and failures surface as
IoFailure / SerializationFailure. -/
def save_data_to_path {T : Type} (c : Codec T) (v : T) (p : JPath) (fs : FS) :
    Except JError Unit × FS :=
  match c.encode v with
  | none => (.error .serde, fs)
  | some enc =>
    if (fs.contents p).isSome || fs.creatable p then (.ok (), fs.write p enc)
    else (.error .io, fs)

/-! ## lib.rs: the `Jsave<T>` wrapper -/

/-- `Jsave<T>` from lib.rs: an `RwLock<T>` (here the protected value;
the lib.rs claims under study do not depend on its reader count) and the
normalized backing path. -/
structure Jsave (T : Type) where
  data : T
  path : JPath

/-- `Jsave::init`: open the backing file for reading, decode it, then
reopen it in truncate-write mode (no create flag) and re-encode the
decoded value into it; any failure propagates and no wrapper results.
On the encode-failure branch the file has already been truncated by the
open.  Returns the wrapper (or error) and the resulting filesystem. -/
def Jsave.init {T : Type} (c : Codec T) (p : LocationInput) (fs : FS) :
    Except JError (Jsave T) × FS :=
  let path := p.intoPathBuf
  match fs.contents path with
  | none => (.error .io, fs)
  | some s =>
    match c.decode s with
    | none => (.error .serde, fs)
    | some data =>
      if (fs.contents path).isSome then
        match c.encode data with
        | none => (.error .serde, fs.write path "")
        | some enc => (.ok ⟨data, path⟩, fs.write path enc)
      else (.error .io, fs)

/-- `Jsave::init_with`: open the destination in truncate-write mode (no
create flag, so it must already exist; its previous contents are
irrelevant and are discarded) and encode the supplied value into it. -/
def Jsave.initWith {T : Type} (c : Codec T) (data : T) (p : LocationInput) (fs : FS) :
    Except JError (Jsave T) × FS :=
  let path := p.intoPathBuf
  if (fs.contents path).isSome then
    match c.encode data with
    | none => (.error .serde, fs.write path "")
    | some enc => (.ok ⟨data, path⟩, fs.write path enc)
  else (.error .io, fs)

/-- `impl Drop for JsaveWriteGuard` (lib.rs 101-112): on scope exit, try
to open the path in truncate-write mode; if that succeeds, serialize the
current value into it and discard (`let _ =`) any serialization error;
if the open fails, do nothing.  No error can escape: the result is just
the new filesystem. -/
def JsaveWriteGuard.drop {T : Type} (c : Codec T) (j : Jsave T) (fs : FS) : FS :=
  if (fs.contents j.path).isSome then
    match c.encode j.data with
    | none => fs.write j.path ""
    | some enc => fs.write j.path enc
  else fs

/-! ## mutex.rs: `Mutex<T>` -/

/-- `Mutex<T>` from mutex.rs: the backing path, the inner
`parking_lot::Mutex` lock bit, and the protected value. -/
structure JMutex (T : Type) where
  filePath : JPath
  locked : Bool
  data : T

namespace JMutex

/-- `Mutex::init`: read and decode the existing backing file, then
`crate::save_data_to_path` the decoded value back (format
normalization); any failure propagates and no wrapper results. -/
def init {T : Type} (c : Codec T) (p : LocationInput) (fs : FS) :
    Except JError (JMutex T) × FS :=
  let path := p.intoPathBuf
  match fs.contents path with
  | none => (.error .io, fs)
  | some s =>
    match c.decode s with
    | none => (.error .serde, fs)
    | some data =>
      match save_data_to_path c data path fs with
      | (.ok _, fs1) => (.ok ⟨path, false, data⟩, fs1)
      | (.error e, fs1) => (.error e, fs1)

/-- `Mutex::init_with`: `crate::save_data_to_path` the supplied value to
the destination; any failure propagates and no wrapper results. -/
def initWith {T : Type} (c : Codec T) (data : T) (p : LocationInput) (fs : FS) :
    Except JError (JMutex T) × FS :=
  let path := p.intoPathBuf
  match save_data_to_path c data path fs with
  | (.ok _, fs1) => (.ok ⟨path, false, data⟩, fs1)
  | (.error e, fs1) => (.error e, fs1)

/-- `Mutex::into_inner`: consume the wrapper, returning the protected
value; no file operation is performed, so the filesystem passes through. -/
def intoInner {T : Type} (m : JMutex T) (fs : FS) : T × FS :=
  (m.data, fs)

/-- `Mutex::path`: the stored backing path. -/
def path {T : Type} (m : JMutex T) : JPath :=
  m.filePath

/-- `Mutex::lock`: block until the inner lock is acquired; the resulting
state (after the wait completes) holds the lock. -/
def lock {T : Type} (m : JMutex T) : JMutex T :=
  ⟨m.filePath, true, m.data⟩

/-- `Mutex::try_lock`: acquire the inner lock only if it is free;
`None` (no guard) otherwise, with nothing else changed. -/
def tryLock {T : Type} (m : JMutex T) : Option Unit × JMutex T :=
  if m.locked then (none, m) else (some (), ⟨m.filePath, true, m.data⟩)

/-- `Mutex::try_lock_for` / `try_lock_until`: jsave simply `Option.map`s
the inner bounded wait; whether the inner lock became available within
the bound is the oracle `acq`.  On `none` nothing changes. -/
def tryLockFor {T : Type} (m : JMutex T) (acq : Bool) : Option Unit × JMutex T :=
  if acq then (some (), ⟨m.filePath, true, m.data⟩) else (none, m)

/-- `Mutex::save`: lock (blocking), then `save_data_to_path` the current
value; the result is surfaced to the caller. -/
def save {T : Type} (c : Codec T) (m : JMutex T) (fs : FS) :
    Except JError Unit × FS :=
  save_data_to_path c m.data m.filePath fs

/-- `Mutex::try_save`: `try_lock().map(|g| save_data_to_path ..)`; if
the lock is held, `None` and no file operation happens. -/
def trySave {T : Type} (c : Codec T) (m : JMutex T) (fs : FS) :
    Option (Except JError Unit) × FS :=
  if m.locked then (none, fs)
  else
    match save_data_to_path c m.data m.filePath fs with
    | (r, fs1) => (some r, fs1)

/-- `Mutex::try_save_for` / `try_save_until`: the inner bounded wait's
outcome is the oracle `acq`; on `none` no file operation happens. -/
def trySaveFor {T : Type} (c : Codec T) (m : JMutex T) (acq : Bool) (fs : FS) :
    Option (Except JError Unit) × FS :=
  if acq then
    match save_data_to_path c m.data m.filePath fs with
    | (r, fs1) => (some r, fs1)
  else (none, fs)

/-- `Mutex::force_unlock`: release the inner lock with no guard
bookkeeping; no file operation. -/
def forceUnlock {T : Type} (m : JMutex T) (fs : FS) : JMutex T × FS :=
  (⟨m.filePath, false, m.data⟩, fs)

/-- `Mutex::force_unlock_fair`: as `force_unlock`, with fair hand-off;
the state effect is the same and no file operation happens. -/
def forceUnlockFair {T : Type} (m : JMutex T) (fs : FS) : JMutex T × FS :=
  (⟨m.filePath, false, m.data⟩, fs)

/-- `Mutex::get_mut`: compile-time-unique access; any mutation it
performs is a pure update of the value. -/
def getMut {T : Type} (m : JMutex T) (f : T → T) : JMutex T :=
  ⟨m.filePath, m.locked, f m.data⟩

end JMutex

/-- Normal release of a `MutexGuard`: mutex.rs defines no `Drop` impl
for `MutexGuard`, so scope exit only drops the inner
`parking_lot::MutexGuard`, releasing the lock; no file is touched. -/
def MutexGuard.drop {T : Type} (m : JMutex T) (fs : FS) : JMutex T × FS :=
  (⟨m.filePath, false, m.data⟩, fs)

/-- `MutexGuard::unlock_fair`: release the inner lock fairly; same state
effect as a normal release, and no file is touched. -/
def MutexGuard.unlockFair {T : Type} (m : JMutex T) (fs : FS) : JMutex T × FS :=
  (⟨m.filePath, false, m.data⟩, fs)

/-- `MutexGuard::map` hands its closure `&mut T`; the lock stays held
and any mutation the closure performs lands in the protected value. -/
def MutexGuard.map {T : Type} (m : JMutex T) (f : T → T) : JMutex T :=
  ⟨m.filePath, m.locked, f m.data⟩

/-! ## rwlock.rs: `RwLock<T>` -/

/-- `RwLock<T>` from rwlock.rs: the backing path, the inner
`parking_lot::RwLock` state (shared reader count, the single upgradable
slot, the exclusive writer bit), and the protected value. -/
structure JRwLock (T : Type) where
  filePath : JPath
  readers : Nat
  upgradable : Bool
  writer : Bool
  data : T

namespace JRwLock

/-- `RwLock::init`: read and decode the existing backing file, then
`crate::save_data_to_path` the decoded value back (format
normalization); any failure propagates and no wrapper results. -/
def init {T : Type} (c : Codec T) (p : LocationInput) (fs : FS) :
    Except JError (JRwLock T) × FS :=
  let path := p.intoPathBuf
  match fs.contents path with
  | none => (.error .io, fs)
  | some s =>
    match c.decode s with
    | none => (.error .serde, fs)
    | some data =>
      match save_data_to_path c data path fs with
      | (.ok _, fs1) => (.ok ⟨path, 0, false, false, data⟩, fs1)
      | (.error e, fs1) => (.error e, fs1)

/-- `RwLock::init_with`: `crate::save_data_to_path` the supplied value
to the destination; any failure propagates and no wrapper results. -/
def initWith {T : Type} (c : Codec T) (data : T) (p : LocationInput) (fs : FS) :
    Except JError (JRwLock T) × FS :=
  let path := p.intoPathBuf
  match save_data_to_path c data path fs with
  | (.ok _, fs1) => (.ok ⟨path, 0, false, false, data⟩, fs1)
  | (.error e, fs1) => (.error e, fs1)

/-- `RwLock::into_inner`: consume the wrapper, returning the protected
value; no file operation is performed. -/
def intoInner {T : Type} (w : JRwLock T) (fs : FS) : T × FS :=
  (w.data, fs)

/-- `RwLock::path`: the stored backing path. -/
def path {T : Type} (w : JRwLock T) : JPath :=
  w.filePath

/-- `RwLock::read` (and `read_recursive`): block until no writer holds
the lock, then take one more shared slot. -/
def read {T : Type} (w : JRwLock T) : JRwLock T :=
  ⟨w.filePath, w.readers + 1, w.upgradable, false, w.data⟩

/-- `RwLock::try_read`: take a shared slot only if no writer holds the
lock; `None` otherwise, with nothing else changed. -/
def tryRead {T : Type} (w : JRwLock T) : Option Unit × JRwLock T :=
  if w.writer then (none, w)
  else (some (), ⟨w.filePath, w.readers + 1, w.upgradable, false, w.data⟩)

/-- `RwLock::write`: block until no reader, upgradable holder or writer
remains, then take the exclusive slot. -/
def write {T : Type} (w : JRwLock T) : JRwLock T :=
  ⟨w.filePath, 0, false, true, w.data⟩

/-- `RwLock::try_write`: take the exclusive slot only if the lock is
entirely free; `None` otherwise, with nothing else changed. -/
def tryWrite {T : Type} (w : JRwLock T) : Option Unit × JRwLock T :=
  if w.readers = 0 && !w.upgradable && !w.writer then
    (some (), ⟨w.filePath, 0, false, true, w.data⟩)
  else (none, w)

/-- `RwLock::try_write_for` / `try_write_until`: jsave `Option.map`s the
inner bounded wait, whose outcome is the oracle `acq`. -/
def tryWriteFor {T : Type} (w : JRwLock T) (acq : Bool) : Option Unit × JRwLock T :=
  if acq then (some (), ⟨w.filePath, 0, false, true, w.data⟩) else (none, w)

/-- `RwLock::upgradable_read`: block until the upgradable slot and the
writer slot are free, then take the upgradable slot. -/
def upgradableRead {T : Type} (w : JRwLock T) : JRwLock T :=
  ⟨w.filePath, w.readers, true, false, w.data⟩

/-- `RwLock::try_upgradable_read`: take the upgradable slot only if it
and the writer slot are free; `None` otherwise. -/
def tryUpgradableRead {T : Type} (w : JRwLock T) : Option Unit × JRwLock T :=
  if !w.upgradable && !w.writer then
    (some (), ⟨w.filePath, w.readers, true, false, w.data⟩)
  else (none, w)

/-- `RwLock::save`: take the exclusive lock (blocking), then
`save_data_to_path` the current value; the result is surfaced. -/
def save {T : Type} (c : Codec T) (w : JRwLock T) (fs : FS) :
    Except JError Unit × FS :=
  save_data_to_path c w.data w.filePath fs

/-- `RwLock::try_save`: `try_write().map(|g| save_data_to_path ..)`;
if the lock is not entirely free, `None` and no file operation. -/
def trySave {T : Type} (c : Codec T) (w : JRwLock T) (fs : FS) :
    Option (Except JError Unit) × FS :=
  if w.readers = 0 && !w.upgradable && !w.writer then
    match save_data_to_path c w.data w.filePath fs with
    | (r, fs1) => (some r, fs1)
  else (none, fs)

/-- `RwLock::try_save_for` / `try_save_until`: the inner bounded
exclusive wait's outcome is the oracle `acq`; on `none` no file
operation happens. -/
def trySaveFor {T : Type} (c : Codec T) (w : JRwLock T) (acq : Bool) (fs : FS) :
    Option (Except JError Unit) × FS :=
  if acq then
    match save_data_to_path c w.data w.filePath fs with
    | (r, fs1) => (some r, fs1)
  else (none, fs)

/-- `RwLock::force_unlock_read`: release one shared slot with no guard
bookkeeping; no file operation. -/
def forceUnlockRead {T : Type} (w : JRwLock T) (fs : FS) : JRwLock T × FS :=
  (⟨w.filePath, w.readers - 1, w.upgradable, w.writer, w.data⟩, fs)

/-- `RwLock::force_unlock_write_and_save`: despite its name, the body is
only `self.data.force_unlock_write()` — it releases the exclusive slot
and performs no file operation at all. -/
def forceUnlockWriteAndSave {T : Type} (w : JRwLock T) (fs : FS) : JRwLock T × FS :=
  (⟨w.filePath, w.readers, w.upgradable, false, w.data⟩, fs)

/-- `RwLock::force_unlock_read_fair`: as `force_unlock_read`, with fair
hand-off; same state effect, no file operation. -/
def forceUnlockReadFair {T : Type} (w : JRwLock T) (fs : FS) : JRwLock T × FS :=
  (⟨w.filePath, w.readers - 1, w.upgradable, w.writer, w.data⟩, fs)

/-- `RwLock::force_unlock_write_and_save_fair`: the body is only
`self.data.force_unlock_write_fair()` — no file operation. -/
def forceUnlockWriteAndSaveFair {T : Type} (w : JRwLock T) (fs : FS) : JRwLock T × FS :=
  (⟨w.filePath, w.readers, w.upgradable, false, w.data⟩, fs)

/-- `RwLock::get_mut`: compile-time-unique access; any mutation is a
pure update of the value. -/
def getMut {T : Type} (w : JRwLock T) (f : T → T) : JRwLock T :=
  ⟨w.filePath, w.readers, w.upgradable, w.writer, f w.data⟩

end JRwLock

/-- Normal release of a `RwLockReadGuard`: rwlock.rs defines no `Drop`
impl, so scope exit only drops the inner guard, releasing one shared
slot; no file is touched. -/
def RwLockReadGuard.drop {T : Type} (w : JRwLock T) (fs : FS) : JRwLock T × FS :=
  (⟨w.filePath, w.readers - 1, w.upgradable, w.writer, w.data⟩, fs)

/-- Normal release of a `RwLockWriteGuard`: rwlock.rs defines no `Drop`
impl, so scope exit only drops the inner guard, releasing the exclusive
slot; no file is touched. -/
def RwLockWriteGuard.drop {T : Type} (w : JRwLock T) (fs : FS) : JRwLock T × FS :=
  (⟨w.filePath, w.readers, w.upgradable, false, w.data⟩, fs)

/-- Normal release of a `RwLockUpgradableReadGuard`: no `Drop` impl, so
scope exit releases the upgradable slot; no file is touched. -/
def RwLockUpgradableReadGuard.drop {T : Type} (w : JRwLock T) (fs : FS) : JRwLock T × FS :=
  (⟨w.filePath, w.readers, false, w.writer, w.data⟩, fs)

/-- Normal release of a `MappedRwLockReadGuard` (a projection of a read
guard): the inner mapped guard's drop releases one shared slot; no file
is touched. -/
def MappedRwLockReadGuard.drop {T : Type} (w : JRwLock T) (fs : FS) : JRwLock T × FS :=
  (⟨w.filePath, w.readers - 1, w.upgradable, w.writer, w.data⟩, fs)

/-- Normal release of a `MappedRwLockWriteGuard` (a projection of a
write guard): the inner mapped guard's drop releases the exclusive slot;
no file is touched (rwlock.rs defines no `Drop` impl for it). -/
def MappedRwLockWriteGuard.drop {T : Type} (w : JRwLock T) (fs : FS) : JRwLock T × FS :=
  (⟨w.filePath, w.readers, w.upgradable, false, w.data⟩, fs)

/-- `RwLockWriteGuard::downgrade`: atomically exchange the exclusive
slot for one shared slot; no file is touched. -/
def RwLockWriteGuard.downgrade {T : Type} (w : JRwLock T) (fs : FS) : JRwLock T × FS :=
  (⟨w.filePath, w.readers + 1, w.upgradable, false, w.data⟩, fs)

/-- `RwLockWriteGuard::downgrade_to_upgradable`: atomically exchange the
exclusive slot for the upgradable slot; no file is touched. -/
def RwLockWriteGuard.downgradeToUpgradable {T : Type} (w : JRwLock T) (fs : FS) :
    JRwLock T × FS :=
  (⟨w.filePath, w.readers, true, false, w.data⟩, fs)

/-- `RwLockUpgradableReadGuard::upgrade`: block until the ordinary
shared readers drain, then exchange the upgradable slot for the
exclusive slot; no file is touched. -/
def RwLockUpgradableReadGuard.upgrade {T : Type} (w : JRwLock T) (fs : FS) :
    JRwLock T × FS :=
  (⟨w.filePath, 0, false, true, w.data⟩, fs)

/-- `RwLockUpgradableReadGuard::try_upgrade`: upgrade only if no
ordinary shared reader remains; on failure the original guard is
returned unchanged and nothing else changes. -/
def RwLockUpgradableReadGuard.tryUpgrade {T : Type} (w : JRwLock T) (fs : FS) :
    Option Unit × JRwLock T × FS :=
  if w.readers = 0 then (some (), ⟨w.filePath, 0, false, true, w.data⟩, fs)
  else (none, w, fs)

/-- `RwLockWriteGuard::map` hands its closure `&mut T`; the exclusive
lock stays held and any mutation lands in the protected value. -/
def RwLockWriteGuard.map {T : Type} (w : JRwLock T) (f : T → T) : JRwLock T :=
  ⟨w.filePath, w.readers, w.upgradable, w.writer, f w.data⟩

/-! ## remutex.rs: `ReentrantMutex<T>` -/

/-- `ReentrantMutex<T>` from remutex.rs: the backing path, the inner
`parking_lot::ReentrantMutex` state (owning thread, if any, and the
reentry depth kept per instance), and the protected value. -/
structure JReentrantMutex (T : Type) where
  filePath : JPath
  owner : Option Nat
  count : Nat
  data : T

namespace JReentrantMutex

/-- `ReentrantMutex::init`: read and decode the existing backing file,
then `crate::save_data_to_path` the decoded value back; any failure
propagates and no wrapper results. -/
def init {T : Type} (c : Codec T) (p : LocationInput) (fs : FS) :
    Except JError (JReentrantMutex T) × FS :=
  let path := p.intoPathBuf
  match fs.contents path with
  | none => (.error .io, fs)
  | some s =>
    match c.decode s with
    | none => (.error .serde, fs)
    | some data =>
      match save_data_to_path c data path fs with
      | (.ok _, fs1) => (.ok ⟨path, none, 0, data⟩, fs1)
      | (.error e, fs1) => (.error e, fs1)

/-- `ReentrantMutex::init_with`: `crate::save_data_to_path` the supplied
value to the destination; any failure propagates. -/
def initWith {T : Type} (c : Codec T) (data : T) (p : LocationInput) (fs : FS) :
    Except JError (JReentrantMutex T) × FS :=
  let path := p.intoPathBuf
  match save_data_to_path c data path fs with
  | (.ok _, fs1) => (.ok ⟨path, none, 0, data⟩, fs1)
  | (.error e, fs1) => (.error e, fs1)

/-- `ReentrantMutex::into_inner`: consume the wrapper, returning the
protected value; no file operation is performed. -/
def intoInner {T : Type} (m : JReentrantMutex T) (fs : FS) : T × FS :=
  (m.data, fs)

/-- `ReentrantMutex::path`: the stored backing path. -/
def path {T : Type} (m : JReentrantMutex T) : JPath :=
  m.filePath

/-- `ReentrantMutex::lock` by thread `tid`: re-enter if `tid` already
owns the lock, otherwise (after any blocking wait completes) take
ownership at depth one. -/
def lock {T : Type} (m : JReentrantMutex T) (tid : Nat) : JReentrantMutex T :=
  if m.owner = some tid then ⟨m.filePath, m.owner, m.count + 1, m.data⟩
  else ⟨m.filePath, some tid, 1, m.data⟩

/-- `ReentrantMutex::try_lock` by thread `tid`: succeeds if the lock is
free or already owned by `tid`; `None` otherwise. -/
def tryLock {T : Type} (m : JReentrantMutex T) (tid : Nat) :
    Option Unit × JReentrantMutex T :=
  match m.owner with
  | none => (some (), ⟨m.filePath, some tid, 1, m.data⟩)
  | some t =>
    if t = tid then (some (), ⟨m.filePath, m.owner, m.count + 1, m.data⟩)
    else (none, m)

/-- `ReentrantMutex::try_lock_for` / `try_lock_until`: the inner bounded
wait's outcome is the oracle `acq`. -/
def tryLockFor {T : Type} (m : JReentrantMutex T) (tid : Nat) (acq : Bool) :
    Option Unit × JReentrantMutex T :=
  if acq then (some (), (lock m tid)) else (none, m)

/-- `ReentrantMutex::save`: lock (blocking), then `save_data_to_path`
the current value; the result is surfaced. -/
def save {T : Type} (c : Codec T) (m : JReentrantMutex T) (fs : FS) :
    Except JError Unit × FS :=
  save_data_to_path c m.data m.filePath fs

/-- `ReentrantMutex::try_save`: `try_lock().map(|g| save_data_to_path ..)`;
if another thread owns the lock, `None` and no file operation. -/
def trySave {T : Type} (c : Codec T) (m : JReentrantMutex T) (tid : Nat) (fs : FS) :
    Option (Except JError Unit) × FS :=
  match (tryLock m tid).1 with
  | none => (none, fs)
  | some _ =>
    match save_data_to_path c m.data m.filePath fs with
    | (r, fs1) => (some r, fs1)

/-- `ReentrantMutex::try_save_for` / `try_save_until`: the inner bounded
wait's outcome is the oracle `acq`; on `none` no file operation. -/
def trySaveFor {T : Type} (c : Codec T) (m : JReentrantMutex T) (acq : Bool) (fs : FS) :
    Option (Except JError Unit) × FS :=
  if acq then
    match save_data_to_path c m.data m.filePath fs with
    | (r, fs1) => (some r, fs1)
  else (none, fs)

/-- `ReentrantMutex::force_unlock`: release one level of the reentrant
lock with no guard bookkeeping; no file operation. -/
def forceUnlock {T : Type} (m : JReentrantMutex T) (fs : FS) : JReentrantMutex T × FS :=
  (⟨m.filePath, if m.count ≤ 1 then none else m.owner, m.count - 1, m.data⟩, fs)

/-- `ReentrantMutex::force_unlock_fair`: as `force_unlock`, with fair
hand-off; same state effect, no file operation. -/
def forceUnlockFair {T : Type} (m : JReentrantMutex T) (fs : FS) : JReentrantMutex T × FS :=
  (⟨m.filePath, if m.count ≤ 1 then none else m.owner, m.count - 1, m.data⟩, fs)

/-- `ReentrantMutex::get_mut`: compile-time-unique access; any mutation
is a pure update of the value. -/
def getMut {T : Type} (m : JReentrantMutex T) (f : T → T) : JReentrantMutex T :=
  ⟨m.filePath, m.owner, m.count, f m.data⟩

end JReentrantMutex

/-- Normal release of a `ReentrantMutexGuard`: remutex.rs defines no
`Drop` impl, so scope exit drops the inner guard, releasing one level of
the reentrant lock; no file is touched. -/
def ReentrantMutexGuard.drop {T : Type} (m : JReentrantMutex T) (fs : FS) :
    JReentrantMutex T × FS :=
  (⟨m.filePath, if m.count ≤ 1 then none else m.owner, m.count - 1, m.data⟩, fs)

/-- `ReentrantMutexGuard::map`: the projection closure receives `&T`
(shared) and the result only exposes the projected view; the protected
value cannot change through it. -/
def ReentrantMutexGuard.map {T U : Type} (m : JReentrantMutex T) (f : T → U) : U :=
  f m.data

/-- `ReentrantMutexGuard::try_map` exactly as declared in remutex.rs
(lines 186-199): its closure parameter is `FnOnce(&mut T) -> Option<&mut U>`,
so the closure receives a mutable reference to the protected value and
whatever it writes there persists; the closure also optionally selects a
projected view.  (This signature cannot even typecheck against the inner
`parking_lot::ReentrantMutexGuard::try_map`, which demands
`FnOnce(&T) -> Option<&U>`.)  The closure is modelled as returning the
updated value together with the optional projection. -/
def ReentrantMutexGuard.tryMap {T U : Type} (m : JReentrantMutex T)
    (f : T → T × Option U) : Option U × JReentrantMutex T :=
  match f m.data with
  | (t1, u) => (u, ⟨m.filePath, m.owner, m.count, t1⟩)

/-- `MappedReentrantMutexGuard::map` / `try_map`: both closures receive
`&T` only; pure projections that cannot change the protected value. -/
def MappedReentrantMutexGuard.map {T U : Type} (m : JReentrantMutex T) (f : T → U) : U :=
  f m.data

/-! ## Concrete fixtures -/

/-- A filesystem holding the encoding of `false` at path `db`; every
other path is absent but creatable. -/
def fsDb : FS :=
  ⟨fun q => if q = "db" then some "false" else none, fun _ => true⟩

/-- An empty filesystem in which every path is creatable. -/
def fsEmpty : FS :=
  ⟨fun _ => none, fun _ => true⟩

/-! ## Claim C1 -/

/-- Claim C1 as stated is false: a `MutexGuard` over current value
`true` is released (scope exit) while the backing file `db` is openable
and the value encodes fine, yet the file still holds the stale encoding
of `false` afterwards — the release never attempted to serialize. -/
theorem c1_counterexample_mutex_release_does_not_persist :
    (MutexGuard.drop (⟨"db", true, true⟩ : JMutex Bool) fsDb).2.contents "db"
        = some "false"
    ∧ boolCodec.encode (MutexGuard.drop (⟨"db", true, true⟩ : JMutex Bool) fsDb).1.data
        = some "true"
    ∧ (MutexGuard.drop (⟨"db", true, true⟩ : JMutex Bool) fsDb).2.contents "db"
        ≠ boolCodec.encode (MutexGuard.drop (⟨"db", true, true⟩ : JMutex Bool) fsDb).1.data
    ∧ (fsDb.contents "db").isSome = true := by
  refine ⟨by simp [MutexGuard.drop, fsDb], by simp [MutexGuard.drop, boolCodec], ?_, by simp [fsDb]⟩
  simp [MutexGuard.drop, fsDb, boolCodec]

/-- Claim C1, amended: of the write-capable guards, only lib.rs's
`JsaveWriteGuard` persists on normal release — its drop serializes the
current value to the backing path whenever that path can be opened in
truncate-write mode, silently discarding failures (an unopenable path
leaves the filesystem untouched; an encoding failure leaves the file
truncated; no error is ever surfaced, as the drop returns no result).
The `MutexGuard` and `RwLockWriteGuard` normal releases only release the
inner lock and never touch the backing location. -/
theorem c1_amended_release_persistence {T : Type} (c : Codec T) (j : Jsave T) (fs : FS) :
    ((fs.contents j.path).isSome = true → ∀ enc, c.encode j.data = some enc →
        JsaveWriteGuard.drop c j fs = fs.write j.path enc)
    ∧ ((fs.contents j.path).isSome = true → c.encode j.data = none →
        JsaveWriteGuard.drop c j fs = fs.write j.path "")
    ∧ (fs.contents j.path = none → JsaveWriteGuard.drop c j fs = fs)
    ∧ (∀ m : JMutex T, MutexGuard.drop m fs = (⟨m.filePath, false, m.data⟩, fs))
    ∧ (∀ w : JRwLock T, RwLockWriteGuard.drop w fs
        = (⟨w.filePath, w.readers, w.upgradable, false, w.data⟩, fs)) := by
  refine ⟨?_, ?_, ?_, fun m => rfl, fun w => rfl⟩
  · intro hopen enc henc
    simp [JsaveWriteGuard.drop, hopen, henc]
  · intro hopen henc
    simp [JsaveWriteGuard.drop, hopen, henc]
  · intro hnone
    simp [JsaveWriteGuard.drop, hnone]

/-- Witness for the amended C1: a `JsaveWriteGuard` over value `true`
and path `db` re-serializes `true` into the (existing) file on drop. -/
theorem c1_amended_release_persistence_witness :
    JsaveWriteGuard.drop boolCodec (⟨true, "db"⟩ : Jsave Bool) fsDb
      = fsDb.write "db" "true" :=
  (c1_amended_release_persistence boolCodec ⟨true, "db"⟩ fsDb).1
    (by simp [fsDb]) "true" rfl

/-! ## Claim C2 -/

/-- Claim C2 as stated is false: in the shared/exclusive discipline a
`RwLockWriteGuard` over current value `true` is released while the
backing file `db` is writable and the value encodes fine, yet the file
still holds the stale encoding of `false` — the write guard's normal
release did not auto-persist. -/
theorem c2_counterexample_rwlock_write_release_does_not_persist :
    (RwLockWriteGuard.drop (⟨"db", 0, false, true, true⟩ : JRwLock Bool) fsDb).2.contents "db"
        = some "false"
    ∧ (RwLockWriteGuard.drop (⟨"db", 0, false, true, true⟩ : JRwLock Bool) fsDb).2.contents "db"
        ≠ boolCodec.encode
            (RwLockWriteGuard.drop (⟨"db", 0, false, true, true⟩ : JRwLock Bool) fsDb).1.data
    ∧ (fsDb.contents "db").isSome = true := by
  refine ⟨by simp [RwLockWriteGuard.drop, fsDb], ?_, by simp [fsDb]⟩
  simp [RwLockWriteGuard.drop, fsDb, boolCodec]

/-- Claim C2, amended: in the shared/exclusive discipline no guard's
normal release auto-persists.  Releases of write guards, read guards,
upgradable-read guards, and mapped guards (from either side) only
release the corresponding lock slot, leaving the backing location and
the protected value unchanged; persistence happens only through
`init`/`init_with` and the explicit save family. -/
theorem c2_amended_no_rwlock_release_persists {T : Type} (w : JRwLock T) (fs : FS) :
    (RwLockWriteGuard.drop w fs).2 = fs
    ∧ (RwLockReadGuard.drop w fs).2 = fs
    ∧ (RwLockUpgradableReadGuard.drop w fs).2 = fs
    ∧ (MappedRwLockReadGuard.drop w fs).2 = fs
    ∧ (MappedRwLockWriteGuard.drop w fs).2 = fs
    ∧ (RwLockWriteGuard.drop w fs).1.data = w.data
    ∧ (RwLockReadGuard.drop w fs).1.data = w.data
    ∧ (RwLockUpgradableReadGuard.drop w fs).1.data = w.data
    ∧ (MappedRwLockWriteGuard.drop w fs).1.data = w.data :=
  ⟨rfl, rfl, rfl, rfl, rfl, rfl, rfl, rfl, rfl⟩

/-! ## Claim C3 -/

/-- Claim C3: for every existing backing file with valid encoded
content, `init` (in all four wrappers) decodes it, immediately
re-encodes the decoded value and truncate-writes it back to the same
location, and returns a wrapper whose in-memory value is the decoded
one; if the open fails (file absent) or the decode fails, `init`
returns an I/O resp. serde error, leaves the filesystem unchanged, and
constructs no wrapper. -/
theorem c3_init_reads_decodes_and_normalizes {T : Type} (c : Codec T)
    (p : LocationInput) (fs : FS) :
    (∀ s v enc, fs.contents p.intoPathBuf = some s → c.decode s = some v →
        c.encode v = some enc →
        Jsave.init c p fs = (.ok ⟨v, p.intoPathBuf⟩, fs.write p.intoPathBuf enc)
        ∧ JMutex.init c p fs = (.ok ⟨p.intoPathBuf, false, v⟩, fs.write p.intoPathBuf enc)
        ∧ JRwLock.init c p fs
            = (.ok ⟨p.intoPathBuf, 0, false, false, v⟩, fs.write p.intoPathBuf enc)
        ∧ JReentrantMutex.init c p fs
            = (.ok ⟨p.intoPathBuf, none, 0, v⟩, fs.write p.intoPathBuf enc))
    ∧ (fs.contents p.intoPathBuf = none →
        Jsave.init (T := T) c p fs = (.error .io, fs)
        ∧ JMutex.init (T := T) c p fs = (.error .io, fs)
        ∧ JRwLock.init (T := T) c p fs = (.error .io, fs)
        ∧ JReentrantMutex.init (T := T) c p fs = (.error .io, fs))
    ∧ (∀ s, fs.contents p.intoPathBuf = some s → c.decode s = none →
        Jsave.init (T := T) c p fs = (.error .serde, fs)
        ∧ JMutex.init (T := T) c p fs = (.error .serde, fs)
        ∧ JRwLock.init (T := T) c p fs = (.error .serde, fs)
        ∧ JReentrantMutex.init (T := T) c p fs = (.error .serde, fs)) := by
  refine ⟨?_, ?_, ?_⟩
  · intro s v enc hread hdec henc
    refine ⟨?_, ?_, ?_, ?_⟩ <;>
      simp [Jsave.init, JMutex.init, JRwLock.init, JReentrantMutex.init,
        save_data_to_path, hread, hdec, henc]
  · intro hnone
    refine ⟨?_, ?_, ?_, ?_⟩ <;>
      simp [Jsave.init, JMutex.init, JRwLock.init, JReentrantMutex.init, hnone]
  · intro s hread hdec
    refine ⟨?_, ?_, ?_, ?_⟩ <;>
      simp [Jsave.init, JMutex.init, JRwLock.init, JReentrantMutex.init, hread, hdec]

/-- Witness for C3: initializing from the file `db` holding `"false"`
decodes `false`, writes `"false"` back, and yields a wrapper whose value
is `false`; on the empty filesystem `init` fails with an I/O error. -/
theorem c3_init_reads_decodes_and_normalizes_witness :
    Jsave.init boolCodec (.ownedText "db") fsDb
        = (.ok ⟨false, "db"⟩, fsDb.write "db" "false")
    ∧ JMutex.init boolCodec (.ownedText "db") fsDb
        = (.ok ⟨"db", false, false⟩, fsDb.write "db" "false")
    ∧ JMutex.init (T := Bool) boolCodec (.ownedText "db") fsEmpty
        = (.error .io, fsEmpty) := by
  have h := c3_init_reads_decodes_and_normalizes boolCodec (.ownedText "db") fsDb
  have h0 := c3_init_reads_decodes_and_normalizes (T := Bool) boolCodec (.ownedText "db") fsEmpty
  have hs := h.1 "false" false "false" (by simp [fsDb, LocationInput.intoPathBuf])
    (by simp [boolCodec]) (by simp [boolCodec])
  exact ⟨hs.1, hs.2.1, (h0.2.1 (by simp [fsEmpty])).2.1⟩

/-! ## Claim C4 -/

/-- Claim C4: for every value `v` that the codec round-trips (a
"supported value shape") and every location at which `init_with` can
succeed, `init_with(v, L)` followed by `init(L)` on a fresh wrapper
yields an in-memory value equal to `v` — in lib.rs's `Jsave` (whose
`init_with` needs the destination to exist) and in the `Mutex` wrapper
(whose save helper also accepts a creatable destination). -/
theorem c4_init_with_then_init_round_trip {T : Type} (c : Codec T) (v : T)
    (p : LocationInput) (fs : FS) :
    (∀ s0 enc, fs.contents p.intoPathBuf = some s0 → c.encode v = some enc →
        c.decode enc = some v →
        (Jsave.init c p (Jsave.initWith c v p fs).2).1 = .ok ⟨v, p.intoPathBuf⟩)
    ∧ (∀ enc, ((fs.contents p.intoPathBuf).isSome || fs.creatable p.intoPathBuf) = true →
        c.encode v = some enc → c.decode enc = some v →
        (JMutex.init c p (JMutex.initWith c v p fs).2).1
          = .ok ⟨p.intoPathBuf, false, v⟩) := by
  constructor
  · intro s0 enc hex henc hdec
    simp [Jsave.initWith, Jsave.init, hex, henc, hdec]
  · intro enc hcre henc hdec
    simp [JMutex.initWith, JMutex.init, save_data_to_path, hcre, henc, hdec]

/-- Witness for C4: storing `true` at `db` with `init_with` and then
re-initializing from `db` recovers the in-memory value `true`, both for
`Jsave` (existing destination) and for `Mutex` (creatable destination,
starting from the empty filesystem). -/
theorem c4_init_with_then_init_round_trip_witness :
    (Jsave.init boolCodec (.ownedText "db")
        (Jsave.initWith boolCodec true (.ownedText "db") fsDb).2).1
      = .ok ⟨true, "db"⟩
    ∧ (JMutex.init boolCodec (.ownedText "db")
        (JMutex.initWith boolCodec true (.ownedText "db") fsEmpty).2).1
      = .ok ⟨"db", false, true⟩ := by
  have h := c4_init_with_then_init_round_trip boolCodec true (.ownedText "db") fsDb
  have h0 := c4_init_with_then_init_round_trip boolCodec true (.ownedText "db") fsEmpty
  exact ⟨h.1 "false" "true" (by simp [fsDb, LocationInput.intoPathBuf])
      (by simp [boolCodec]) (by simp [boolCodec]),
    h0.2 "true" (by simp [fsEmpty]) (by simp [boolCodec]) (by simp [boolCodec])⟩

/-! ## Claim C5 -/

/-- Claim C5 as stated is false: `Jsave::init_with` opens the
destination with write+truncate but no create flag, so on a filesystem
where `db` does not exist but is creatable it fails with an I/O error
instead of succeeding. -/
theorem c5_counterexample_init_with_fails_on_creatable_location :
    fsEmpty.creatable "db" = true
    ∧ fsEmpty.contents "db" = none
    ∧ (Jsave.initWith boolCodec true (.ownedText "db") fsEmpty).1 = .error .io := by
  refine ⟨rfl, rfl, ?_⟩
  simp [Jsave.initWith, fsEmpty, LocationInput.intoPathBuf]

/-- Claim C5, amended: `init_with` requires no pre-existing valid
content — whatever the destination currently holds is truncated away and
on success the destination holds exactly the encoding of `v`.  But
`Jsave::init_with` does require the destination to already exist (its
open has no create flag, so a merely creatable location yields an I/O
error), while the module wrappers' `init_with` (through the crate-root
save helper) also succeed on a merely creatable destination. -/
theorem c5_amended_init_with_requirements {T : Type} (c : Codec T) (v : T)
    (p : LocationInput) (fs : FS) :
    (∀ s0 enc, fs.contents p.intoPathBuf = some s0 → c.encode v = some enc →
        Jsave.initWith c v p fs
          = (.ok ⟨v, p.intoPathBuf⟩, fs.write p.intoPathBuf enc))
    ∧ (fs.contents p.intoPathBuf = none →
        Jsave.initWith c v p fs = (.error .io, fs))
    ∧ (∀ enc, ((fs.contents p.intoPathBuf).isSome || fs.creatable p.intoPathBuf) = true →
        c.encode v = some enc →
        JMutex.initWith c v p fs
          = (.ok ⟨p.intoPathBuf, false, v⟩, fs.write p.intoPathBuf enc)) := by
  refine ⟨?_, ?_, ?_⟩
  · intro s0 enc hex henc
    simp [Jsave.initWith, hex, henc]
  · intro hnone
    simp [Jsave.initWith, hnone]
  · intro enc hcre henc
    simp [JMutex.initWith, save_data_to_path, hcre, henc]

/-- Witness for the amended C5: over the file `db` currently holding the
(perfectly valid but irrelevant) text `"false"`, `Jsave::init_with true`
succeeds and overwrites it with `"true"`; on the empty filesystem,
`Mutex::init_with true` creates `db` holding `"true"`. -/
theorem c5_amended_init_with_requirements_witness :
    Jsave.initWith boolCodec true (.ownedText "db") fsDb
      = (.ok ⟨true, "db"⟩, fsDb.write "db" "true")
    ∧ JMutex.initWith boolCodec true (.ownedText "db") fsEmpty
      = (.ok ⟨"db", false, true⟩, fsEmpty.write "db" "true") := by
  have h := c5_amended_init_with_requirements boolCodec true (.ownedText "db") fsDb
  have h0 := c5_amended_init_with_requirements boolCodec true (.ownedText "db") fsEmpty
  exact ⟨h.1 "false" "true" (by simp [fsDb, LocationInput.intoPathBuf]) (by simp [boolCodec]),
    h0.2.2 "true" (by simp [fsEmpty]) (by simp [boolCodec])⟩

/-! ## Claim C6 -/

/-- Claim C6: every bounded or non-blocking acquisition returns an
`Option` — `none` (not an error value) when the lock was not acquired
within the bound, with the wrapper state unchanged — and for the
try-save family a `none` result comes with an untouched filesystem
(the backing file was not written). -/
theorem c6_bounded_acquire_none_is_not_error {T : Type} (c : Codec T)
    (m : JMutex T) (w : JRwLock T) (r : JReentrantMutex T) (fs : FS) (tid : Nat) :
    (m.locked = true → JMutex.tryLock m = (none, m))
    ∧ JMutex.tryLockFor m false = (none, m)
    ∧ (m.locked = true → JMutex.trySave c m fs = (none, fs))
    ∧ JMutex.trySaveFor c m false fs = (none, fs)
    ∧ ((w.readers = 0 && !w.upgradable && !w.writer) = false →
        JRwLock.tryWrite w = (none, w))
    ∧ JRwLock.tryWriteFor w false = (none, w)
    ∧ ((w.readers = 0 && !w.upgradable && !w.writer) = false →
        JRwLock.trySave c w fs = (none, fs))
    ∧ JRwLock.trySaveFor c w false fs = (none, fs)
    ∧ JReentrantMutex.tryLockFor r tid false = (none, r)
    ∧ JReentrantMutex.trySaveFor c r false fs = (none, fs)
    ∧ ((JMutex.trySave c m fs).1 = none → (JMutex.trySave c m fs).2 = fs)
    ∧ ((JRwLock.trySave c w fs).1 = none → (JRwLock.trySave c w fs).2 = fs)
    ∧ ((JReentrantMutex.trySave c r tid fs).1 = none
        → (JReentrantMutex.trySave c r tid fs).2 = fs) := by
  refine ⟨fun h => by simp [JMutex.tryLock, h], by simp [JMutex.tryLockFor],
    fun h => by simp [JMutex.trySave, h], by simp [JMutex.trySaveFor],
    fun h => by simp [JRwLock.tryWrite, h], by simp [JRwLock.tryWriteFor],
    fun h => by simp [JRwLock.trySave, h], by simp [JRwLock.trySaveFor],
    by simp [JReentrantMutex.tryLockFor], by simp [JReentrantMutex.trySaveFor],
    ?_, ?_, ?_⟩
  · by_cases h : m.locked <;>
      simp [JMutex.trySave, h]
  · by_cases h : (w.readers = 0 && !w.upgradable && !w.writer) <;>
      simp [JRwLock.trySave, h]
  · rcases h : (JReentrantMutex.tryLock r tid).1 with _ | u <;>
      simp [JReentrantMutex.trySave, h]

/-- Witness for C6: on a held mutex (`locked = true`) over value `true`,
`try_lock` and `try_save` both return `none` with nothing changed, and a
bounded save whose inner wait expired returns `none` with the file
untouched. -/
theorem c6_bounded_acquire_none_is_not_error_witness :
    JMutex.tryLock (⟨"db", true, true⟩ : JMutex Bool) = (none, ⟨"db", true, true⟩)
    ∧ JMutex.trySave boolCodec (⟨"db", true, true⟩ : JMutex Bool) fsDb = (none, fsDb)
    ∧ JRwLock.tryWrite (⟨"db", 3, false, false, true⟩ : JRwLock Bool)
        = (none, ⟨"db", 3, false, false, true⟩)
    ∧ JMutex.trySaveFor boolCodec (⟨"db", true, true⟩ : JMutex Bool) false fsDb
        = (none, fsDb) := by
  have h := c6_bounded_acquire_none_is_not_error boolCodec
    (⟨"db", true, true⟩ : JMutex Bool) (⟨"db", 3, false, false, true⟩ : JRwLock Bool)
    (⟨"db", some 0, 1, true⟩ : JReentrantMutex Bool) fsDb 0
  exact ⟨h.1 rfl, h.2.2.1 rfl, h.2.2.2.2.1 rfl, h.2.2.2.1⟩

/-! ## Claim C7 -/

/-- Claim C7 meets a slip in the code: `ReentrantMutexGuard::try_map` as
declared in remutex.rs hands its projection closure a mutable reference
(`FnOnce(&mut T) -> Option<&mut U>`), so mutable access to the protected
value is obtainable through a reentrant guard: with the closure
`|t| { *t += 1; Some(t) }`, the protected value changes from `1` to `2`.
(`map` and the mapped-guard projections do take `&T` as the spec says,
and the body of `try_map` cannot even typecheck against the inner
read-only `parking_lot` signature — the spec's read-only contract is the
evident intent.) -/
theorem c7_remutex_try_map_grants_mutable_access :
    ((ReentrantMutexGuard.tryMap (⟨"db", some 0, 1, (1 : Nat)⟩ : JReentrantMutex Nat)
        (fun t => (t + 1, some (t + 1)))).2).data = 2
    ∧ (⟨"db", some 0, 1, (1 : Nat)⟩ : JReentrantMutex Nat).data = 1
    ∧ ReentrantMutexGuard.map (⟨"db", some 0, 1, (1 : Nat)⟩ : JReentrantMutex Nat)
        (fun t => t) = 1 :=
  ⟨rfl, rfl, rfl⟩

/-! ## Claim C8 -/

/-- Claim C8: none of the unsafe force-unlock operations —
`Mutex::force_unlock(_fair)`, `ReentrantMutex::force_unlock(_fair)`,
`RwLock::force_unlock_read(_fair)` and, despite their names,
`RwLock::force_unlock_write_and_save(_fair)` — performs any write to the
backing location: each releases its lock slot, leaving the filesystem
and the protected value unchanged. -/
theorem c8_force_unlock_never_persists {T : Type}
    (m : JMutex T) (w : JRwLock T) (r : JReentrantMutex T) (fs : FS) :
    (JMutex.forceUnlock m fs).2 = fs
    ∧ (JMutex.forceUnlockFair m fs).2 = fs
    ∧ (JRwLock.forceUnlockRead w fs).2 = fs
    ∧ (JRwLock.forceUnlockWriteAndSave w fs).2 = fs
    ∧ (JRwLock.forceUnlockReadFair w fs).2 = fs
    ∧ (JRwLock.forceUnlockWriteAndSaveFair w fs).2 = fs
    ∧ (JReentrantMutex.forceUnlock r fs).2 = fs
    ∧ (JReentrantMutex.forceUnlockFair r fs).2 = fs
    ∧ (JMutex.forceUnlock m fs).1.locked = false
    ∧ (JMutex.forceUnlock m fs).1.data = m.data
    ∧ (JRwLock.forceUnlockWriteAndSave w fs).1.writer = false
    ∧ (JRwLock.forceUnlockWriteAndSave w fs).1.data = w.data :=
  ⟨rfl, rfl, rfl, rfl, rfl, rfl, rfl, rfl, rfl, rfl, rfl, rfl⟩

/-! ## Claim C9 -/

/-- Claim C9: `into_inner` on each of the three wrappers consumes the
wrapper and returns exactly the in-memory protected value, and the
backing filesystem passes through untouched (no read, write or
truncation). -/
theorem c9_into_inner_returns_value_leaves_file {T : Type}
    (m : JMutex T) (w : JRwLock T) (r : JReentrantMutex T) (fs : FS) :
    JMutex.intoInner m fs = (m.data, fs)
    ∧ JRwLock.intoInner w fs = (w.data, fs)
    ∧ JReentrantMutex.intoInner r fs = (r.data, fs) :=
  ⟨rfl, rfl, rfl⟩

/-! ## Claim C10 -/

/-- The operations available on a `Mutex<T>` (and its guards) after
construction, in one enumeration. -/
inductive MutexOp (T : Type) where
  | lockOp
  | tryLockOp
  | tryLockForOp (acq : Bool)
  | saveOp
  | trySaveOp
  | trySaveForOp (acq : Bool)
  | guardDropOp
  | guardUnlockFairOp
  | guardMapOp (f : T → T)
  | forceUnlockOp
  | forceUnlockFairOp
  | getMutOp (f : T → T)

/-- The state effect of each `Mutex` operation, built from the
per-operation definitions above. -/
def MutexOp.step {T : Type} (c : Codec T) (op : MutexOp T) (m : JMutex T) (fs : FS) :
    JMutex T × FS :=
  match op with
  | .lockOp => (JMutex.lock m, fs)
  | .tryLockOp => ((JMutex.tryLock m).2, fs)
  | .tryLockForOp acq => ((JMutex.tryLockFor m acq).2, fs)
  | .saveOp => (m, (JMutex.save c m fs).2)
  | .trySaveOp => (m, (JMutex.trySave c m fs).2)
  | .trySaveForOp acq => (m, (JMutex.trySaveFor c m acq fs).2)
  | .guardDropOp => MutexGuard.drop m fs
  | .guardUnlockFairOp => MutexGuard.unlockFair m fs
  | .guardMapOp f => (MutexGuard.map m f, fs)
  | .forceUnlockOp => JMutex.forceUnlock m fs
  | .forceUnlockFairOp => JMutex.forceUnlockFair m fs
  | .getMutOp f => (JMutex.getMut m f, fs)

/-- The operations available on a `RwLock<T>` (and its guards) after
construction, in one enumeration. -/
inductive RwOp (T : Type) where
  | readOp
  | tryReadOp
  | writeOp
  | tryWriteOp
  | tryWriteForOp (acq : Bool)
  | upgradableReadOp
  | tryUpgradableReadOp
  | saveOp
  | trySaveOp
  | trySaveForOp (acq : Bool)
  | readDropOp
  | writeDropOp
  | upgradableDropOp
  | mappedReadDropOp
  | mappedWriteDropOp
  | downgradeOp
  | downgradeToUpgradableOp
  | upgradeOp
  | tryUpgradeOp
  | forceUnlockReadOp
  | forceUnlockWriteAndSaveOp
  | forceUnlockReadFairOp
  | forceUnlockWriteAndSaveFairOp
  | writeGuardMapOp (f : T → T)
  | getMutOp (f : T → T)

/-- The state effect of each `RwLock` operation. -/
def RwOp.step {T : Type} (c : Codec T) (op : RwOp T) (w : JRwLock T) (fs : FS) :
    JRwLock T × FS :=
  match op with
  | .readOp => (JRwLock.read w, fs)
  | .tryReadOp => ((JRwLock.tryRead w).2, fs)
  | .writeOp => (JRwLock.write w, fs)
  | .tryWriteOp => ((JRwLock.tryWrite w).2, fs)
  | .tryWriteForOp acq => ((JRwLock.tryWriteFor w acq).2, fs)
  | .upgradableReadOp => (JRwLock.upgradableRead w, fs)
  | .tryUpgradableReadOp => ((JRwLock.tryUpgradableRead w).2, fs)
  | .saveOp => (w, (JRwLock.save c w fs).2)
  | .trySaveOp => (w, (JRwLock.trySave c w fs).2)
  | .trySaveForOp acq => (w, (JRwLock.trySaveFor c w acq fs).2)
  | .readDropOp => RwLockReadGuard.drop w fs
  | .writeDropOp => RwLockWriteGuard.drop w fs
  | .upgradableDropOp => RwLockUpgradableReadGuard.drop w fs
  | .mappedReadDropOp => MappedRwLockReadGuard.drop w fs
  | .mappedWriteDropOp => MappedRwLockWriteGuard.drop w fs
  | .downgradeOp => RwLockWriteGuard.downgrade w fs
  | .downgradeToUpgradableOp => RwLockWriteGuard.downgradeToUpgradable w fs
  | .upgradeOp => RwLockUpgradableReadGuard.upgrade w fs
  | .tryUpgradeOp => ((RwLockUpgradableReadGuard.tryUpgrade w fs).2.1,
      (RwLockUpgradableReadGuard.tryUpgrade w fs).2.2)
  | .forceUnlockReadOp => JRwLock.forceUnlockRead w fs
  | .forceUnlockWriteAndSaveOp => JRwLock.forceUnlockWriteAndSave w fs
  | .forceUnlockReadFairOp => JRwLock.forceUnlockReadFair w fs
  | .forceUnlockWriteAndSaveFairOp => JRwLock.forceUnlockWriteAndSaveFair w fs
  | .writeGuardMapOp f => (RwLockWriteGuard.map w f, fs)
  | .getMutOp f => (JRwLock.getMut w f, fs)

/-- The operations available on a `ReentrantMutex<T>` (and its guards)
after construction, in one enumeration. -/
inductive ReOp (T : Type) where
  | lockOp (tid : Nat)
  | tryLockOp (tid : Nat)
  | tryLockForOp (tid : Nat) (acq : Bool)
  | saveOp
  | trySaveOp (tid : Nat)
  | trySaveForOp (acq : Bool)
  | guardDropOp
  | tryMapOp (f : T → T × Option T)
  | forceUnlockOp
  | forceUnlockFairOp
  | getMutOp (f : T → T)

/-- The state effect of each `ReentrantMutex` operation. -/
def ReOp.step {T : Type} (c : Codec T) (op : ReOp T) (r : JReentrantMutex T) (fs : FS) :
    JReentrantMutex T × FS :=
  match op with
  | .lockOp tid => (JReentrantMutex.lock r tid, fs)
  | .tryLockOp tid => ((JReentrantMutex.tryLock r tid).2, fs)
  | .tryLockForOp tid acq => ((JReentrantMutex.tryLockFor r tid acq).2, fs)
  | .saveOp => (r, (JReentrantMutex.save c r fs).2)
  | .trySaveOp tid => (r, (JReentrantMutex.trySave c r tid fs).2)
  | .trySaveForOp acq => (r, (JReentrantMutex.trySaveFor c r acq fs).2)
  | .guardDropOp => ReentrantMutexGuard.drop r fs
  | .tryMapOp f => ((ReentrantMutexGuard.tryMap r f).2, fs)
  | .forceUnlockOp => JReentrantMutex.forceUnlock r fs
  | .forceUnlockFairOp => JReentrantMutex.forceUnlockFair r fs
  | .getMutOp f => (JReentrantMutex.getMut r f, fs)

/-- Claim C10: the backing path stored at construction is an invariant —
`init`/`init_with` store exactly the normalized supplied location, no
subsequent operation of any of the three disciplines ever changes the
stored path, and `path()` returns exactly that stored path. -/
theorem c10_backing_path_is_invariant {T : Type} (c : Codec T) :
    (∀ (op : MutexOp T) (m : JMutex T) (fs : FS),
        (MutexOp.step c op m fs).1.filePath = m.filePath)
    ∧ (∀ (op : RwOp T) (w : JRwLock T) (fs : FS),
        (RwOp.step c op w fs).1.filePath = w.filePath)
    ∧ (∀ (op : ReOp T) (r : JReentrantMutex T) (fs : FS),
        (ReOp.step c op r fs).1.filePath = r.filePath)
    ∧ (∀ m : JMutex T, JMutex.path m = m.filePath)
    ∧ (∀ w : JRwLock T, JRwLock.path w = w.filePath)
    ∧ (∀ r : JReentrantMutex T, JReentrantMutex.path r = r.filePath)
    ∧ (∀ (p : LocationInput) (fs : FS) (v : T) (m : JMutex T) (fs1 : FS),
        JMutex.initWith c v p fs = (.ok m, fs1) → m.filePath = p.intoPathBuf)
    ∧ (∀ (p : LocationInput) (fs : FS) (m : JMutex T) (fs1 : FS),
        JMutex.init c p fs = (.ok m, fs1) → m.filePath = p.intoPathBuf)
    ∧ (∀ (p : LocationInput) (fs : FS) (v : T) (w : JRwLock T) (fs1 : FS),
        JRwLock.initWith c v p fs = (.ok w, fs1) → w.filePath = p.intoPathBuf)
    ∧ (∀ (p : LocationInput) (fs : FS) (v : T) (r : JReentrantMutex T) (fs1 : FS),
        JReentrantMutex.initWith c v p fs = (.ok r, fs1)
          → r.filePath = p.intoPathBuf) := by
  refine ⟨?_, ?_, ?_, fun m => rfl, fun w => rfl, fun r => rfl, ?_, ?_, ?_, ?_⟩
  · intro op m fs
    cases op <;>
      simp [MutexOp.step, JMutex.lock, JMutex.tryLock, JMutex.tryLockFor,
        MutexGuard.drop, MutexGuard.unlockFair, MutexGuard.map,
        JMutex.forceUnlock, JMutex.forceUnlockFair, JMutex.getMut] <;>
      split <;> rfl
  · intro op w fs
    cases op <;>
      simp [RwOp.step, JRwLock.read, JRwLock.tryRead, JRwLock.write,
        JRwLock.tryWrite, JRwLock.tryWriteFor, JRwLock.upgradableRead,
        JRwLock.tryUpgradableRead, RwLockReadGuard.drop, RwLockWriteGuard.drop,
        RwLockUpgradableReadGuard.drop, MappedRwLockReadGuard.drop,
        MappedRwLockWriteGuard.drop, RwLockWriteGuard.downgrade,
        RwLockWriteGuard.downgradeToUpgradable, RwLockUpgradableReadGuard.upgrade,
        RwLockUpgradableReadGuard.tryUpgrade, JRwLock.forceUnlockRead,
        JRwLock.forceUnlockWriteAndSave, JRwLock.forceUnlockReadFair,
        JRwLock.forceUnlockWriteAndSaveFair, RwLockWriteGuard.map,
        JRwLock.getMut] <;>
      split <;> rfl
  · intro op r fs
    cases op <;>
      simp [ReOp.step, JReentrantMutex.lock, JReentrantMutex.tryLock,
        JReentrantMutex.tryLockFor, ReentrantMutexGuard.drop,
        ReentrantMutexGuard.tryMap, JReentrantMutex.forceUnlock,
        JReentrantMutex.forceUnlockFair, JReentrantMutex.getMut] <;>
      (repeat' split) <;> rfl
  · intro p fs v m fs1 h
    unfold JMutex.initWith at h
    rcases hs : save_data_to_path c v p.intoPathBuf fs with ⟨res, fs2⟩
    cases res <;> simp [hs] at h
    rw [← h.1]
  · intro p fs m fs1 h
    unfold JMutex.init at h
    rcases hc : fs.contents p.intoPathBuf with _ | s <;> simp [hc] at h
    rcases hd : c.decode s with _ | v <;> simp [hd] at h
    rcases hs : save_data_to_path c v p.intoPathBuf fs with ⟨res, fs2⟩
    cases res <;> simp [hs] at h
    rw [← h.1]
  · intro p fs v w fs1 h
    unfold JRwLock.initWith at h
    rcases hs : save_data_to_path c v p.intoPathBuf fs with ⟨res, fs2⟩
    cases res <;> simp [hs] at h
    rw [← h.1]
  · intro p fs v r fs1 h
    unfold JReentrantMutex.initWith at h
    rcases hs : save_data_to_path c v p.intoPathBuf fs with ⟨res, fs2⟩
    cases res <;> simp [hs] at h
    rw [← h.1]

/-- Witness for C10: a concrete `Mutex::init_with` stores exactly the
normalized path `db`, a concrete guard-release step preserves it, and
`path()` reads it back. -/
theorem c10_backing_path_is_invariant_witness :
    (MutexOp.step boolCodec .guardDropOp (⟨"db", true, true⟩ : JMutex Bool) fsDb).1.filePath
        = "db"
    ∧ JMutex.path (⟨"db", true, true⟩ : JMutex Bool) = "db"
    ∧ (⟨"db", false, true⟩ : JMutex Bool).filePath
        = LocationInput.intoPathBuf (.ownedText "db") := by
  have h := c10_backing_path_is_invariant (T := Bool) boolCodec
  refine ⟨h.1 .guardDropOp ⟨"db", true, true⟩ fsDb, h.2.2.2.1 ⟨"db", true, true⟩, ?_⟩
  exact h.2.2.2.2.2.2.1 (.ownedText "db") fsEmpty true ⟨"db", false, true⟩
    (fsEmpty.write "db" "true")
    (by simp [JMutex.initWith, save_data_to_path, fsEmpty, boolCodec, LocationInput.intoPathBuf])
